import Mathlib

/-!
Shallow embedding of the BBK_BE booking backend (src/index.ts) and proofs of
the spec's claims about it.

The source is a single Express app with four endpoints over a Firestore
document store and a Stripe payment gateway:
  * POST /create-payment-intent  (hold creation)
  * POST /finalize-booking       (seat reservation, transactional)
  * POST /claim-session          (capture all authorized holds)
  * POST /cancel-session         (release all authorized holds)

The store is modelled as a function from (operatorUid, sessionId) keys to an
optional session document; the gateway as a function from a payment-intent id
to a Bool (true = the Stripe call succeeds, false = it throws).  A thrown
gateway exception propagates to the handler's catch block, so it is modelled
as an `Except.error` that aborts the rest of the handler with no write.
JavaScript truthiness of the string parameters (undefined / "" are falsy) and
missing document fields (`session.status || OPEN`, `session.ridersProfile || []`)
are modelled with `Option`.
-/

/-- SESSION_STATUS from src/index.ts lines 13-19. -/
inductive SessionStatus
  | OPEN
  | MIN_REACHED
  | FULL
  | CLAIMED
  | CANCELLED
  deriving DecidableEq, Repr

/-- RIDER_PAYMENT_STATUS from src/index.ts lines 24-28. -/
inductive RiderPaymentStatus
  | AUTHORIZED
  | CAPTURED
  | CANCELLED
  deriving DecidableEq, Repr

/-- One entry of a session's ridersProfile array, as written by
finalize-booking (lines 163-170): `{ uid, paymentIntentId, status }`.
`paymentIntentId` is `Option` because the field may be absent in a stored
document (the settlement loops test its truthiness). -/
structure Rider where
  uid : String
  paymentIntentId : Option String
  status : RiderPaymentStatus
  deriving DecidableEq, Repr

/-- The session document read from Firestore.  `status` and `ridersProfile`
are `Option` because the handlers default them (`session.status || OPEN`,
`session.ridersProfile || []`); the numeric fields are used directly. -/
structure Session where
  totalSeats : Nat
  minRidersToConfirm : Nat
  pricePerSeat : Nat
  bookedSeats : Nat
  status : Option SessionStatus
  ridersProfile : Option (List Rider)
  claimedAt : Option Nat
  cancelledAt : Option Nat
  deriving DecidableEq, Repr

/-- The document store: `slots/{operatorUid}/slots/{sessionId}` keyed lookup. -/
abbrev Store := String → String → Option Session

/-- The payment gateway: for a payment-intent id, `true` means the Stripe
capture/cancel call succeeds, `false` means it throws. -/
abbrev Gateway := String → Bool

/-- JavaScript truthiness of an optional string request field or document
field: undefined and the empty string are falsy. -/
def truthy : Option String → Bool
  | none => false
  | some s => s ≠ ""

/-- String interpolation of a possibly-undefined request parameter into the
document path: JavaScript renders undefined as "undefined". -/
def keyOf : Option String → String
  | none => "undefined"
  | some s => s

/-- isFinalStatus from src/index.ts lines 53-58. -/
def isFinalStatus (s : SessionStatus) : Bool :=
  s = SessionStatus.CLAIMED || s = SessionStatus.CANCELLED

/-- canClaim from src/index.ts lines 60-65. -/
def canClaim (s : SessionStatus) : Bool :=
  s = SessionStatus.MIN_REACHED || s = SessionStatus.FULL

/-- claim-session reads `session.status` without defaulting (line 214);
`canClaim(undefined)` is false in JavaScript. -/
def canClaimOpt : Option SessionStatus → Bool
  | some st => canClaim st
  | none => false

/-- The status recomputation inlined in finalize-booking (lines 172-178). -/
def nextStatus (newBookedSeats totalSeats minRidersToConfirm : Nat) : SessionStatus :=
  if newBookedSeats ≥ totalSeats then SessionStatus.FULL
  else if newBookedSeats ≥ minRidersToConfirm then SessionStatus.MIN_REACHED
  else SessionStatus.OPEN

/-- Rejection reasons of finalize-booking (the thrown error messages of
lines 128-158), with the spec's names. -/
inductive ReserveError
  | MISSING_PARAMS
  | NOT_FOUND
  | NOT_BOOKABLE
  | SESSION_FULL
  | ALREADY_BOOKED
  deriving DecidableEq, Repr

/-- The body of the finalize-booking transaction (src/index.ts lines 134-185)
given the document read for the session: validate in order, then build the
updated document.  An `Except.error` is a thrown validation error, which
aborts the transaction with no write. -/
def reserveSeatTx (riderUid paymentIntentId : String) (doc : Option Session) :
    Except ReserveError Session :=
  match doc with
  | none => Except.error ReserveError.NOT_FOUND
  | some session =>
    let status := session.status.getD SessionStatus.OPEN
    if isFinalStatus status then Except.error ReserveError.NOT_BOOKABLE
    else if session.bookedSeats ≥ session.totalSeats then Except.error ReserveError.SESSION_FULL
    else if (session.ridersProfile.getD []).any (fun r => r.uid == riderUid) then
      Except.error ReserveError.ALREADY_BOOKED
    else
      let newBookedSeats := session.bookedSeats + 1
      let updatedRiders := (session.ridersProfile.getD []) ++
        [{ uid := riderUid, paymentIntentId := some paymentIntentId,
           status := RiderPaymentStatus.AUTHORIZED }]
      Except.ok { session with
        bookedSeats := newBookedSeats,
        ridersProfile := some updatedRiders,
        status := some (nextStatus newBookedSeats session.totalSeats session.minRidersToConfirm) }

/-- The request parameters of POST /finalize-booking (line 125). -/
structure ReserveParams where
  sessionId : Option String
  operatorUid : Option String
  riderUid : Option String
  paymentIntentId : Option String

/-- POST /finalize-booking (src/index.ts lines 123-192): the missing-parameter
check of line 128, then the document lookup and the transaction body. -/
def reserveSeat (store : Store) (p : ReserveParams) : Except ReserveError Session :=
  if !truthy p.sessionId || !truthy p.operatorUid || !truthy p.riderUid ||
      !truthy p.paymentIntentId then
    Except.error ReserveError.MISSING_PARAMS
  else
    reserveSeatTx (keyOf p.riderUid) (keyOf p.paymentIntentId)
      (store (keyOf p.operatorUid) (keyOf p.sessionId))

/-- The effect of one finalize-booking call on the session document: the new
document on success, the unchanged document on a rejected call (the thrown
error aborts the transaction before `tx.update`). -/
def applyReserve (riderUid paymentIntentId : String) (doc : Option Session) : Option Session :=
  match reserveSeatTx riderUid paymentIntentId doc with
  | Except.ok s => some s
  | Except.error _ => doc

/-- A sequence of finalize-booking calls against one session document. -/
def runReserves (ops : List (String × String)) (doc : Option Session) : Option Session :=
  ops.foldl (fun d op => applyReserve op.1 op.2 d) doc

/-- The eligibility test of the settlement loops (lines 222-226 and 263-267):
`rider.paymentIntentId && rider.status === AUTHORIZED`. -/
def riderEligible (r : Rider) : Bool :=
  truthy r.paymentIntentId && (r.status == RiderPaymentStatus.AUTHORIZED)

/-- The payment-intent id a settlement loop passes to the gateway for an
eligible rider (eligibility guarantees it is a nonempty string). -/
def holdOf (r : Rider) : String :=
  r.paymentIntentId.getD ""

/-- The capture loop of claim-session (src/index.ts lines 222-230): riders are
processed in order; an eligible rider's hold is captured and the rider marked
CAPTURED; a gateway throw (`false`) aborts the whole handler. -/
def captureRiders (gw : Gateway) : List Rider → Except Unit (List Rider)
  | [] => Except.ok []
  | r :: rs =>
    if riderEligible r then
      if gw (holdOf r) then
        Except.map
          (fun rest => { r with status := RiderPaymentStatus.CAPTURED } :: rest)
          (captureRiders gw rs)
      else Except.error ()
    else Except.map (fun rest => r :: rest) (captureRiders gw rs)

/-- The release loop of cancel-session (src/index.ts lines 263-271): same
structure as the capture loop, marking CANCELLED instead. -/
def cancelRiders (gw : Gateway) : List Rider → Except Unit (List Rider)
  | [] => Except.ok []
  | r :: rs =>
    if riderEligible r then
      if gw (holdOf r) then
        Except.map
          (fun rest => { r with status := RiderPaymentStatus.CANCELLED } :: rest)
          (cancelRiders gw rs)
      else Except.error ()
    else Except.map (fun rest => r :: rest) (cancelRiders gw rs)

/-- What the loops write into an eligible rider on the all-success path. -/
def captureMark (r : Rider) : Rider :=
  if riderEligible r then { r with status := RiderPaymentStatus.CAPTURED } else r

/-- What the release loop writes into an eligible rider on the all-success path. -/
def cancelMark (r : Rider) : Rider :=
  if riderEligible r then { r with status := RiderPaymentStatus.CANCELLED } else r

/-- Failure kinds of POST /claim-session: the 400s of lines 202-218, 404 of
line 210, and the 500 of line 241 reached when a Stripe capture throws. -/
inductive ClaimError
  | MISSING_PARAMS
  | NOT_FOUND
  | NOT_READY
  | GATEWAY_FAILURE
  deriving DecidableEq, Repr

/-- Failure kinds of POST /cancel-session: the 404 of line 257 and the 500 of
line 282 reached when a Stripe cancel throws.  The handler has no
missing-parameter branch. -/
inductive CancelError
  | NOT_FOUND
  | GATEWAY_FAILURE
  deriving DecidableEq, Repr

/-- claim-session (src/index.ts lines 198-243) after the parameter check,
given the document read: existence check, canClaim check, capture loop, then
the single update writing status CLAIMED, the rider list and claimedAt.  A
gateway throw aborts before the update, so the store is unchanged. -/
def claimSessionDoc (gw : Gateway) (now : Nat) (doc : Option Session) :
    Except ClaimError Session :=
  match doc with
  | none => Except.error ClaimError.NOT_FOUND
  | some session =>
    if canClaimOpt session.status then
      match captureRiders gw (session.ridersProfile.getD []) with
      | Except.ok riders =>
        Except.ok { session with
          status := some SessionStatus.CLAIMED,
          ridersProfile := some riders,
          claimedAt := some now }
      | Except.error _ => Except.error ClaimError.GATEWAY_FAILURE
    else Except.error ClaimError.NOT_READY

/-- cancel-session (src/index.ts lines 249-284) given the document read:
existence check, release loop, then the single update writing status
CANCELLED, the rider list and cancelledAt.  There is no terminal-status
check; a gateway throw aborts before the update. -/
def cancelSessionDoc (gw : Gateway) (now : Nat) (doc : Option Session) :
    Except CancelError Session :=
  match doc with
  | none => Except.error CancelError.NOT_FOUND
  | some session =>
    match cancelRiders gw (session.ridersProfile.getD []) with
    | Except.ok riders =>
      Except.ok { session with
        status := some SessionStatus.CANCELLED,
        ridersProfile := some riders,
        cancelledAt := some now }
    | Except.error _ => Except.error CancelError.GATEWAY_FAILURE

/-- The request parameters of POST /claim-session and POST /cancel-session. -/
structure SettleParams where
  sessionId : Option String
  operatorUid : Option String

/-- POST /claim-session: the missing-parameter check of line 202, then the
lookup and the claim logic. -/
def claimSession (store : Store) (gw : Gateway) (now : Nat) (p : SettleParams) :
    Except ClaimError Session :=
  if !truthy p.sessionId || !truthy p.operatorUid then
    Except.error ClaimError.MISSING_PARAMS
  else claimSessionDoc gw now (store (keyOf p.operatorUid) (keyOf p.sessionId))

/-- POST /cancel-session: NO missing-parameter check (lines 251-253 destructure
the body and go straight to the document lookup, interpolating undefined
parameters into the path). -/
def cancelSession (store : Store) (gw : Gateway) (now : Nat) (p : SettleParams) :
    Except CancelError Session :=
  cancelSessionDoc gw now (store (keyOf p.operatorUid) (keyOf p.sessionId))

/-- Failure kinds of POST /create-payment-intent (lines 75-96). -/
inductive IntentError
  | MISSING_PARAMS
  | NOT_FOUND
  | NOT_BOOKABLE
  | SESSION_FULL
  deriving DecidableEq, Repr

/-- The payment hold created by stripe.paymentIntents.create (lines 98-107):
amount, currency, and the metadata fields. -/
structure PaymentIntent where
  amount : Nat
  currency : String
  sessionId : String
  operatorUid : String
  riderUid : String
  deriving DecidableEq, Repr

/-- The request parameters of POST /create-payment-intent (line 73). -/
structure IntentParams where
  sessionId : Option String
  operatorUid : Option String
  riderUid : Option String

/-- The body of create-payment-intent after the parameter check
(src/index.ts lines 79-107), given the document read: existence,
bookability and capacity checks, then the hold with
`amount = pricePerSeat * 100` and currency "aed". -/
def createIntentDoc (sessionId operatorUid riderUid : String) (doc : Option Session) :
    Except IntentError PaymentIntent :=
  match doc with
  | none => Except.error IntentError.NOT_FOUND
  | some session =>
    let status := session.status.getD SessionStatus.OPEN
    if isFinalStatus status then Except.error IntentError.NOT_BOOKABLE
    else if session.bookedSeats ≥ session.totalSeats then Except.error IntentError.SESSION_FULL
    else Except.ok
      { amount := session.pricePerSeat * 100,
        currency := "aed",
        sessionId := sessionId,
        operatorUid := operatorUid,
        riderUid := riderUid }

/-- POST /create-payment-intent (src/index.ts lines 71-117): the
missing-parameter check of line 75, then the lookup and the hold creation. -/
def createPaymentIntent (store : Store) (p : IntentParams) :
    Except IntentError PaymentIntent :=
  if !truthy p.sessionId || !truthy p.operatorUid || !truthy p.riderUid then
    Except.error IntentError.MISSING_PARAMS
  else
    createIntentDoc (keyOf p.sessionId) (keyOf p.operatorUid) (keyOf p.riderUid)
      (store (keyOf p.operatorUid) (keyOf p.sessionId))

/-- The document invariant of spec section 3: seat count matches the rider
list, capacity is respected, rider ids are unique. -/
def WellFormed (s : Session) : Prop :=
  s.bookedSeats = (s.ridersProfile.getD []).length ∧
  s.bookedSeats ≤ s.totalSeats ∧
  ((s.ridersProfile.getD []).map Rider.uid).Nodup

/-! Concrete instances used by the counterexamples and witnesses below. -/

/-- A gateway on which every Stripe call throws. -/
def gwAllFail : Gateway := fun _ => false

/-- A gateway on which every Stripe call succeeds. -/
def gwAllOk : Gateway := fun _ => true

/-- A gateway on which only the hold "pa" can be settled. -/
def gwOnlyPa : Gateway := fun p => p == "pa"

/-- A rider with an authorized hold "pa". -/
def riderA : Rider :=
  { uid := "A", paymentIntentId := some "pa", status := RiderPaymentStatus.AUTHORIZED }

/-- A rider with an authorized hold "pb". -/
def riderB : Rider :=
  { uid := "B", paymentIntentId := some "pb", status := RiderPaymentStatus.AUTHORIZED }

/-- An open session with one authorized rider. -/
def sessOneAuth : Session :=
  { totalSeats := 2, minRidersToConfirm := 1, pricePerSeat := 10, bookedSeats := 1,
    status := some SessionStatus.OPEN, ridersProfile := some [riderA],
    claimedAt := none, cancelledAt := none }

/-- The document written when rider "B" books a seat on `sessOneAuth`. -/
def sessAfterB : Session :=
  { totalSeats := 2, minRidersToConfirm := 1, pricePerSeat := 10, bookedSeats := 2,
    status := some SessionStatus.FULL,
    ridersProfile :=
      some [riderA,
            { uid := "B", paymentIntentId := some "pb", status := RiderPaymentStatus.AUTHORIZED }],
    claimedAt := none, cancelledAt := none }

/-- A claimable session with two authorized riders. -/
def sessTwoAuth : Session :=
  { totalSeats := 3, minRidersToConfirm := 2, pricePerSeat := 10, bookedSeats := 2,
    status := some SessionStatus.MIN_REACHED, ridersProfile := some [riderA, riderB],
    claimedAt := none, cancelledAt := none }

/-- A session already claimed, its rider captured. -/
def sessClaimed : Session :=
  { totalSeats := 2, minRidersToConfirm := 1, pricePerSeat := 10, bookedSeats := 1,
    status := some SessionStatus.CLAIMED,
    ridersProfile :=
      some [{ uid := "A", paymentIntentId := some "pa", status := RiderPaymentStatus.CAPTURED }],
    claimedAt := some 3, cancelledAt := none }

/-- A fresh empty session. -/
def sessEmpty : Session :=
  { totalSeats := 2, minRidersToConfirm := 1, pricePerSeat := 5, bookedSeats := 0,
    status := some SessionStatus.OPEN, ridersProfile := some [],
    claimedAt := none, cancelledAt := none }

/-- The document reached from `sessEmpty` after riders "a" and "b" book. -/
def sessW : Session :=
  { totalSeats := 2, minRidersToConfirm := 1, pricePerSeat := 5, bookedSeats := 2,
    status := some SessionStatus.FULL,
    ridersProfile :=
      some [{ uid := "a", paymentIntentId := some "pa", status := RiderPaymentStatus.AUTHORIZED },
            { uid := "b", paymentIntentId := some "pb", status := RiderPaymentStatus.AUTHORIZED }],
    claimedAt := none, cancelledAt := none }

/-- A stored document lacking both the status and the ridersProfile fields. -/
def sessBare : Session :=
  { totalSeats := 3, minRidersToConfirm := 2, pricePerSeat := 7, bookedSeats := 0,
    status := none, ridersProfile := none, claimedAt := none, cancelledAt := none }

/-- A full session holding an AUTHORIZED rider without a hold id and a
CAPTURED rider: neither is eligible for a settlement gateway call. -/
def sessNoHold : Session :=
  { totalSeats := 1, minRidersToConfirm := 1, pricePerSeat := 5, bookedSeats := 1,
    status := some SessionStatus.FULL,
    ridersProfile :=
      some [{ uid := "A", paymentIntentId := none, status := RiderPaymentStatus.AUTHORIZED },
            { uid := "B", paymentIntentId := some "pb", status := RiderPaymentStatus.CAPTURED }],
    claimedAt := none, cancelledAt := none }

/-- An open session priced at 1 minor unit per seat. -/
def sessPrice1 : Session :=
  { totalSeats := 2, minRidersToConfirm := 1, pricePerSeat := 1, bookedSeats := 0,
    status := some SessionStatus.OPEN, ridersProfile := some [],
    claimedAt := none, cancelledAt := none }

/-- A store holding only `sessPrice1` under operator "op", session "s1". -/
def storePrice1 : Store :=
  fun o i => if o = "op" ∧ i = "s1" then some sessPrice1 else none

/-- A store holding a session at the path that undefined request parameters
interpolate to. -/
def storeUndef : Store :=
  fun o i => if o = "undefined" ∧ i = "undefined" then some sessOneAuth else none

/-- A store with no documents. -/
def emptyStore : Store := fun _ _ => none

/-- finalize-booking parameters with a missing sessionId. -/
def rpMissing : ReserveParams :=
  { sessionId := none, operatorUid := some "op", riderUid := some "r",
    paymentIntentId := some "h1" }

/-- create-payment-intent parameters with a missing operatorUid. -/
def ipMissing : IntentParams :=
  { sessionId := some "s", operatorUid := none, riderUid := some "r" }

/-- claim-session parameters with a missing operatorUid. -/
def spMissing : SettleParams :=
  { sessionId := some "s", operatorUid := none }

/-- create-payment-intent parameters addressing `sessPrice1` in `storePrice1`. -/
def intentParams1 : IntentParams :=
  { sessionId := some "s1", operatorUid := some "op", riderUid := some "r1" }

/-- The hold created for `sessPrice1` through `intentParams1`. -/
def intent1 : PaymentIntent :=
  { amount := 100, currency := "aed", sessionId := "s1", operatorUid := "op", riderUid := "r1" }

/-! Lemmas about the settlement loops. -/

/-- When every eligible rider's capture succeeds, the capture loop returns the
rider list with eligible riders marked CAPTURED. -/
theorem captureRiders_all_ok (gw : Gateway) (riders : List Rider)
    (h : ∀ r ∈ riders, riderEligible r = true → gw (holdOf r) = true) :
    captureRiders gw riders = Except.ok (riders.map captureMark) := by
  induction riders with
  | nil => rfl
  | cons r rs ih =>
    have hrs : ∀ x ∈ rs, riderEligible x = true → gw (holdOf x) = true :=
      fun x hx => h x (List.mem_cons_of_mem r hx)
    cases he : riderEligible r with
    | false => simp [captureRiders, he, ih hrs, captureMark, Except.map]
    | true =>
      have hgw := h r (List.mem_cons_self r rs) he
      simp [captureRiders, he, hgw, ih hrs, captureMark, Except.map]

/-- A gateway throw on any eligible rider makes the capture loop abort. -/
theorem captureRiders_fail (gw : Gateway) (riders : List Rider)
    (h : ∃ r ∈ riders, riderEligible r = true ∧ gw (holdOf r) = false) :
    captureRiders gw riders = Except.error () := by
  induction riders with
  | nil => simp at h
  | cons r rs ih =>
    obtain ⟨x, hx, hel, hgw⟩ := h
    rcases List.mem_cons.mp hx with hxr | hx2
    · subst hxr
      simp [captureRiders, hel, hgw]
    · cases he : riderEligible r with
      | false => simp [captureRiders, he, ih ⟨x, hx2, hel, hgw⟩, Except.map]
      | true =>
        cases hgr : gw (holdOf r) with
        | false => simp [captureRiders, he, hgr]
        | true => simp [captureRiders, he, hgr, ih ⟨x, hx2, hel, hgw⟩, Except.map]

/-- With no eligible rider the capture loop makes no gateway call and leaves
the list unchanged. -/
theorem captureRiders_skip (gw : Gateway) (riders : List Rider)
    (h : ∀ r ∈ riders, riderEligible r = false) :
    captureRiders gw riders = Except.ok riders := by
  induction riders with
  | nil => rfl
  | cons r rs ih =>
    have hr := h r (List.mem_cons_self r rs)
    simp [captureRiders, hr, ih (fun x hx => h x (List.mem_cons_of_mem r hx)), Except.map]

/-- When every eligible rider's release succeeds, the release loop returns the
rider list with eligible riders marked CANCELLED. -/
theorem cancelRiders_all_ok (gw : Gateway) (riders : List Rider)
    (h : ∀ r ∈ riders, riderEligible r = true → gw (holdOf r) = true) :
    cancelRiders gw riders = Except.ok (riders.map cancelMark) := by
  induction riders with
  | nil => rfl
  | cons r rs ih =>
    have hrs : ∀ x ∈ rs, riderEligible x = true → gw (holdOf x) = true :=
      fun x hx => h x (List.mem_cons_of_mem r hx)
    cases he : riderEligible r with
    | false => simp [cancelRiders, he, ih hrs, cancelMark, Except.map]
    | true =>
      have hgw := h r (List.mem_cons_self r rs) he
      simp [cancelRiders, he, hgw, ih hrs, cancelMark, Except.map]

/-- A gateway throw on any eligible rider makes the release loop abort. -/
theorem cancelRiders_fail (gw : Gateway) (riders : List Rider)
    (h : ∃ r ∈ riders, riderEligible r = true ∧ gw (holdOf r) = false) :
    cancelRiders gw riders = Except.error () := by
  induction riders with
  | nil => simp at h
  | cons r rs ih =>
    obtain ⟨x, hx, hel, hgw⟩ := h
    rcases List.mem_cons.mp hx with hxr | hx2
    · subst hxr
      simp [cancelRiders, hel, hgw]
    · cases he : riderEligible r with
      | false => simp [cancelRiders, he, ih ⟨x, hx2, hel, hgw⟩, Except.map]
      | true =>
        cases hgr : gw (holdOf r) with
        | false => simp [cancelRiders, he, hgr]
        | true => simp [cancelRiders, he, hgr, ih ⟨x, hx2, hel, hgw⟩, Except.map]

/-- With no eligible rider the release loop makes no gateway call and leaves
the list unchanged. -/
theorem cancelRiders_skip (gw : Gateway) (riders : List Rider)
    (h : ∀ r ∈ riders, riderEligible r = false) :
    cancelRiders gw riders = Except.ok riders := by
  induction riders with
  | nil => rfl
  | cons r rs ih =>
    have hr := h r (List.mem_cons_self r rs)
    simp [cancelRiders, hr, ih (fun x hx => h x (List.mem_cons_of_mem r hx)), Except.map]

/-! Claims about finalize-booking. -/

/-- Claim C4: finalize-booking validates in the fixed order — session
existence, bookability of the (defaulted) status, seat capacity, rider not
already booked — the first failing check determines the rejection reason
(NOT_FOUND, NOT_BOOKABLE, SESSION_FULL, ALREADY_BOOKED), and any rejected
call leaves the session document unchanged. -/
theorem reserve_validation_order (riderUid pid : String) (doc : Option Session) :
    (doc = none → reserveSeatTx riderUid pid doc = Except.error ReserveError.NOT_FOUND) ∧
    (∀ s, doc = some s → isFinalStatus (s.status.getD SessionStatus.OPEN) = true →
      reserveSeatTx riderUid pid doc = Except.error ReserveError.NOT_BOOKABLE) ∧
    (∀ s, doc = some s → isFinalStatus (s.status.getD SessionStatus.OPEN) = false →
      s.totalSeats ≤ s.bookedSeats →
      reserveSeatTx riderUid pid doc = Except.error ReserveError.SESSION_FULL) ∧
    (∀ s, doc = some s → isFinalStatus (s.status.getD SessionStatus.OPEN) = false →
      s.bookedSeats < s.totalSeats →
      (s.ridersProfile.getD []).any (fun r => r.uid == riderUid) = true →
      reserveSeatTx riderUid pid doc = Except.error ReserveError.ALREADY_BOOKED) ∧
    (∀ e, reserveSeatTx riderUid pid doc = Except.error e →
      applyReserve riderUid pid doc = doc) := by
  refine ⟨?_, ?_, ?_, ?_, ?_⟩
  · rintro rfl
    rfl
  · rintro s rfl hfin
    simp [reserveSeatTx, hfin]
  · rintro s rfl hfin hfull
    simp [reserveSeatTx, hfin, hfull]
  · rintro s rfl hfin hlt hbooked
    simp [reserveSeatTx, hfin, hbooked, Nat.not_le.mpr hlt]
  · intro e he
    simp [applyReserve, he]

/-- Witness for C4: on an absent document the transaction fails NOT_FOUND. -/
theorem reserve_validation_order_witness :
    reserveSeatTx "r" "h1" none = Except.error ReserveError.NOT_FOUND :=
  (reserve_validation_order "r" "h1" none).1 rfl

/-- Claim C6: a successful finalize-booking appends exactly one rider entry
carrying the given riderUid and paymentIntentId with status AUTHORIZED,
increments bookedSeats by one, recomputes the status from the new count, and
changes nothing else. -/
theorem reserve_success_effect (riderUid pid : String) (s s2 : Session)
    (h : reserveSeatTx riderUid pid (some s) = Except.ok s2) :
    s2.bookedSeats = s.bookedSeats + 1 ∧
    s2.ridersProfile = some ((s.ridersProfile.getD []) ++
      [{ uid := riderUid, paymentIntentId := some pid,
         status := RiderPaymentStatus.AUTHORIZED }]) ∧
    s2.status = some (nextStatus (s.bookedSeats + 1) s.totalSeats s.minRidersToConfirm) ∧
    s2.totalSeats = s.totalSeats ∧
    s2.minRidersToConfirm = s.minRidersToConfirm ∧
    s2.pricePerSeat = s.pricePerSeat ∧
    s2.claimedAt = s.claimedAt ∧
    s2.cancelledAt = s.cancelledAt := by
  simp only [reserveSeatTx] at h
  split_ifs at h with h1 h2 h3
  injection h with h
  subst h
  exact ⟨rfl, rfl, rfl, rfl, rfl, rfl, rfl, rfl⟩

/-- Witness for C6: rider "B" books the last seat of `sessOneAuth`. -/
theorem reserve_success_effect_witness :
    sessAfterB.bookedSeats = sessOneAuth.bookedSeats + 1 ∧
    sessAfterB.ridersProfile = some ((sessOneAuth.ridersProfile.getD []) ++
      [{ uid := "B", paymentIntentId := some "pb",
         status := RiderPaymentStatus.AUTHORIZED }]) ∧
    sessAfterB.status = some (nextStatus (sessOneAuth.bookedSeats + 1)
      sessOneAuth.totalSeats sessOneAuth.minRidersToConfirm) ∧
    sessAfterB.totalSeats = sessOneAuth.totalSeats ∧
    sessAfterB.minRidersToConfirm = sessOneAuth.minRidersToConfirm ∧
    sessAfterB.pricePerSeat = sessOneAuth.pricePerSeat ∧
    sessAfterB.claimedAt = sessOneAuth.claimedAt ∧
    sessAfterB.cancelledAt = sessOneAuth.cancelledAt :=
  reserve_success_effect "B" "pb" sessOneAuth sessAfterB rfl

/-- Claim C9: finalize-booking treats a stored document without a status field
as OPEN and one without a ridersProfile field as having an empty rider list;
such a document is accepted and booked subject to the remaining checks. -/
theorem reserve_missing_fields_defaulted (riderUid pid : String) (s : Session)
    (hst : s.status = none) (hrp : s.ridersProfile = none) :
    reserveSeatTx riderUid pid (some s) =
      reserveSeatTx riderUid pid
        (some { s with status := some SessionStatus.OPEN, ridersProfile := some [] }) ∧
    (s.bookedSeats < s.totalSeats →
      reserveSeatTx riderUid pid (some s) = Except.ok { s with
        bookedSeats := s.bookedSeats + 1,
        ridersProfile := some [{ uid := riderUid, paymentIntentId := some pid, status := RiderPaymentStatus.AUTHORIZED }],
        status := some (nextStatus (s.bookedSeats + 1) s.totalSeats
          s.minRidersToConfirm) }) := by
  constructor
  · simp [reserveSeatTx, hst, hrp, isFinalStatus]
  · intro hlt
    simp [reserveSeatTx, hst, hrp, isFinalStatus, Nat.not_le.mpr hlt]

/-- Witness for C9: the bare document `sessBare` is accepted and booked. -/
theorem reserve_missing_fields_defaulted_witness :
    reserveSeatTx "r" "h1" (some sessBare) = Except.ok { sessBare with
      bookedSeats := 1,
      ridersProfile := some [{ uid := "r", paymentIntentId := some "h1", status := RiderPaymentStatus.AUTHORIZED }],
      status := some SessionStatus.OPEN } :=
  (reserve_missing_fields_defaulted "r" "h1" sessBare rfl rfl).2 (by decide)

/-- One finalize-booking call preserves the document invariant. -/
theorem applyReserve_wf (riderUid pid : String) (d : Option Session)
    (h : ∀ s ∈ d, WellFormed s) :
    ∀ s ∈ applyReserve riderUid pid d, WellFormed s := by
  intro s hs
  cases d with
  | none => simp [applyReserve, reserveSeatTx] at hs
  | some s1 =>
    have hwf := h s1 rfl
    cases hres : reserveSeatTx riderUid pid (some s1) with
    | error e =>
      simp [applyReserve, hres] at hs
      subst hs
      exact hwf
    | ok s2 =>
      simp [applyReserve, hres] at hs
      subst hs
      obtain ⟨hlen, hcap, hnodup⟩ := hwf
      simp only [reserveSeatTx] at hres
      split_ifs at hres with h1 h2 h3
      injection hres with hres
      subst hres
      refine ⟨?_, ?_, ?_⟩
      · show s1.bookedSeats + 1 =
          ((s1.ridersProfile.getD []) ++
            [Rider.mk riderUid (some pid) RiderPaymentStatus.AUTHORIZED]).length
        simp [hlen]
      · show s1.bookedSeats + 1 ≤ s1.totalSeats
        omega
      · show (((s1.ridersProfile.getD []) ++
          [Rider.mk riderUid (some pid) RiderPaymentStatus.AUTHORIZED]).map Rider.uid).Nodup
        have hnotin : ∀ r ∈ s1.ridersProfile.getD [], r.uid ≠ riderUid := by
          intro r hr hEq
          exact h3 (List.any_eq_true.mpr ⟨r, hr, by simp [hEq]⟩)
        simp only [List.map_append, List.map_cons, List.map_nil]
        refine List.Nodup.append hnodup (List.nodup_singleton _) ?_
        intro a ha hb
        rw [List.mem_singleton] at hb
        subst hb
        obtain ⟨r, hr, hru⟩ := List.mem_map.mp ha
        exact hnotin r hr hru

/-- Any sequence of finalize-booking calls preserves the document invariant. -/
theorem runReserves_wf (ops : List (String × String)) (d : Option Session)
    (h : ∀ s ∈ d, WellFormed s) :
    ∀ s ∈ runReserves ops d, WellFormed s := by
  induction ops generalizing d with
  | nil => simpa [runReserves] using h
  | cons op rest ih =>
    simp only [runReserves, List.foldl_cons]
    exact ih (applyReserve op.1 op.2 d) (applyReserve_wf op.1 op.2 d h)

/-- Claim C5: starting from a fresh session document, after any sequence of
finalize-booking calls the committed document satisfies
bookedSeats = |ridersProfile|, bookedSeats ≤ totalSeats, and uniqueness of
rider uids. -/
theorem reserve_sequence_invariant (s0 : Session) (ops : List (String × String)) (s : Session)
    (h0 : s0.bookedSeats = 0) (hr : s0.ridersProfile.getD [] = [])
    (hs : runReserves ops (some s0) = some s) :
    s.bookedSeats = (s.ridersProfile.getD []).length ∧
    s.bookedSeats ≤ s.totalSeats ∧
    ((s.ridersProfile.getD []).map Rider.uid).Nodup := by
  have hwf0 : WellFormed s0 := by
    refine ⟨?_, ?_, ?_⟩
    · rw [h0, hr]
      rfl
    · rw [h0]
      exact Nat.zero_le _
    · rw [hr]
      exact List.nodup_nil
  have hall := runReserves_wf ops (some s0) ?_
  · exact hall s (Option.mem_def.mpr hs)
  · intro x hx
    rw [Option.mem_def, Option.some_inj] at hx
    rw [← hx]
    exact hwf0

/-- Witness for C5: from `sessEmpty`, riders "a" then "b" book; the resulting
document `sessW` satisfies the invariant. -/
theorem reserve_sequence_invariant_witness :
    sessW.bookedSeats = (sessW.ridersProfile.getD []).length ∧
    sessW.bookedSeats ≤ sessW.totalSeats ∧
    ((sessW.ridersProfile.getD []).map Rider.uid).Nodup :=
  reserve_sequence_invariant sessEmpty [("a", "pa"), ("b", "pb")] sessW rfl rfl rfl

/-! Claims about claim-session and cancel-session. -/

/-- Counterexample to C1 as stated: on `sessOneAuth` (non-terminal, one
authorized rider with a hold) with every gateway cancel call failing,
cancel-session aborts with a gateway error and performs NO write — the
session is not set to CANCELLED. -/
theorem cancel_gateway_failure_no_writeback :
    cancelSessionDoc gwAllFail 7 (some sessOneAuth) =
      Except.error CancelError.GATEWAY_FAILURE := rfl

/-- Claim C1 (amended): cancel-session writes the session back with
status = CANCELLED and cancelledAt set only when every eligible rider's
gateway cancel succeeds (eligible riders are then marked CANCELLED); the
first gateway failure aborts the handler with an error and nothing is
written, all riders keeping their stored statuses. -/
theorem cancel_writeback (gw : Gateway) (now : Nat) (s : Session) :
    ((∀ r ∈ s.ridersProfile.getD [], riderEligible r = true → gw (holdOf r) = true) →
      cancelSessionDoc gw now (some s) = Except.ok { s with
        status := some SessionStatus.CANCELLED,
        ridersProfile := some ((s.ridersProfile.getD []).map cancelMark),
        cancelledAt := some now }) ∧
    ((∃ r ∈ s.ridersProfile.getD [], riderEligible r = true ∧ gw (holdOf r) = false) →
      cancelSessionDoc gw now (some s) = Except.error CancelError.GATEWAY_FAILURE) := by
  constructor
  · intro hall
    simp [cancelSessionDoc, cancelRiders_all_ok gw _ hall]
  · intro hex
    simp [cancelSessionDoc, cancelRiders_fail gw _ hex]

/-- Witness for C1: with every gateway call succeeding, cancelling
`sessOneAuth` writes CANCELLED with the rider's hold released. -/
theorem cancel_writeback_witness :
    cancelSessionDoc gwAllOk 4 (some sessOneAuth) = Except.ok { sessOneAuth with
      status := some SessionStatus.CANCELLED,
      ridersProfile := some ((sessOneAuth.ridersProfile.getD []).map cancelMark),
      cancelledAt := some 4 } :=
  (cancel_writeback gwAllOk 4 sessOneAuth).1 (by decide)

/-- Counterexample to C2 as stated: claiming `sessTwoAuth` (riders A and B
both authorized) on a gateway where A's capture succeeds and B's fails
aborts with a gateway error: no PARTIAL_FAILURE result, and the partially
updated rider list (A captured) is NOT persisted — the handler returns 500
before any write. -/
theorem claim_partial_failure_no_writeback :
    claimSessionDoc gwOnlyPa 7 (some sessTwoAuth) =
      Except.error ClaimError.GATEWAY_FAILURE := rfl

/-- Claim C2 (amended): on a claimable session, claim-session writes the
session back with status = CLAIMED and claimedAt set only when every eligible
rider's capture succeeds (eligible riders are then marked CAPTURED); if any
capture fails the handler aborts with an error and nothing is persisted — the
stored session keeps its pre-claim status and rider list, so a retry
re-attempts every originally AUTHORIZED rider. -/
theorem claim_writeback (gw : Gateway) (now : Nat) (s : Session)
    (hcl : canClaimOpt s.status = true) :
    ((∀ r ∈ s.ridersProfile.getD [], riderEligible r = true → gw (holdOf r) = true) →
      claimSessionDoc gw now (some s) = Except.ok { s with
        status := some SessionStatus.CLAIMED,
        ridersProfile := some ((s.ridersProfile.getD []).map captureMark),
        claimedAt := some now }) ∧
    ((∃ r ∈ s.ridersProfile.getD [], riderEligible r = true ∧ gw (holdOf r) = false) →
      claimSessionDoc gw now (some s) = Except.error ClaimError.GATEWAY_FAILURE) := by
  constructor
  · intro hall
    simp [claimSessionDoc, hcl, captureRiders_all_ok gw _ hall]
  · intro hex
    simp [claimSessionDoc, hcl, captureRiders_fail gw _ hex]

/-- Witness for C2: with every gateway call succeeding, claiming
`sessTwoAuth` writes CLAIMED with both riders captured. -/
theorem claim_writeback_witness :
    claimSessionDoc gwAllOk 4 (some sessTwoAuth) = Except.ok { sessTwoAuth with
      status := some SessionStatus.CLAIMED,
      ridersProfile := some ((sessTwoAuth.ridersProfile.getD []).map captureMark),
      claimedAt := some 4 } :=
  (claim_writeback gwAllOk 4 sessTwoAuth (by decide)).1 (by decide)

/-- Counterexample to C3 as stated: cancel-session performs no terminal-status
check, so invoking it on the already-CLAIMED `sessClaimed` succeeds and
overwrites the status with CANCELLED — a claimed session CAN become cancelled
through this path. -/
theorem cancel_turns_claimed_into_cancelled :
    cancelSessionDoc gwAllFail 9 (some sessClaimed) = Except.ok { sessClaimed with
      status := some SessionStatus.CANCELLED,
      ridersProfile := some (sessClaimed.ridersProfile.getD []),
      cancelledAt := some 9 } := rfl

/-- Claim C3 (amended): on a terminal session, finalize-booking is rejected
NOT_BOOKABLE and claim-session is rejected NOT_READY, both without mutation;
but cancel-session does NOT check for a terminal status: it proceeds, and
when its gateway calls succeed (or no rider is eligible) it overwrites the
status with CANCELLED — so only reserveSeat and claim leave terminal sessions
untouched. -/
theorem terminal_status_behavior (s : Session) (st : SessionStatus)
    (hst : s.status = some st) (hterm : isFinalStatus st = true) :
    (∀ riderUid pid, reserveSeatTx riderUid pid (some s) =
      Except.error ReserveError.NOT_BOOKABLE) ∧
    (∀ gw now, claimSessionDoc gw now (some s) = Except.error ClaimError.NOT_READY) ∧
    (∀ gw now,
      (∀ r ∈ s.ridersProfile.getD [], riderEligible r = true → gw (holdOf r) = true) →
      cancelSessionDoc gw now (some s) = Except.ok { s with
        status := some SessionStatus.CANCELLED,
        ridersProfile := some ((s.ridersProfile.getD []).map cancelMark),
        cancelledAt := some now }) := by
  refine ⟨?_, ?_, ?_⟩
  · intro riderUid pid
    simp [reserveSeatTx, hst, hterm]
  · intro gw now
    have hc : canClaimOpt s.status = false := by
      rw [hst]
      cases st with
      | OPEN => exact absurd hterm (by decide)
      | MIN_REACHED => exact absurd hterm (by decide)
      | FULL => exact absurd hterm (by decide)
      | CLAIMED => rfl
      | CANCELLED => rfl
    simp [claimSessionDoc, hc]
  · intro gw now hall
    simp [cancelSessionDoc, cancelRiders_all_ok gw _ hall]

/-- Witness for C3: on the CLAIMED `sessClaimed`, claim-session is rejected
NOT_READY. -/
theorem terminal_status_behavior_witness :
    claimSessionDoc gwAllOk 9 (some sessClaimed) = Except.error ClaimError.NOT_READY :=
  (terminal_status_behavior sessClaimed SessionStatus.CLAIMED rfl (by decide)).2.1 gwAllOk 9

/-- Claim C10: in both settlement loops a rider without a (truthy) hold id or
whose paymentStatus is not AUTHORIZED is skipped — for any gateway whatsoever
the result is the same and the rider list is written back unchanged — so a
session reaches the terminal status even with an AUTHORIZED rider whose hold
id is absent, that rider still AUTHORIZED. -/
theorem ineligible_riders_skipped (gw : Gateway) (now : Nat) (s : Session)
    (h : ∀ r ∈ s.ridersProfile.getD [], riderEligible r = false) :
    (canClaimOpt s.status = true →
      claimSessionDoc gw now (some s) = Except.ok { s with
        status := some SessionStatus.CLAIMED,
        ridersProfile := some (s.ridersProfile.getD []),
        claimedAt := some now }) ∧
    cancelSessionDoc gw now (some s) = Except.ok { s with
      status := some SessionStatus.CANCELLED,
      ridersProfile := some (s.ridersProfile.getD []),
      cancelledAt := some now } := by
  constructor
  · intro hcl
    simp [claimSessionDoc, hcl, captureRiders_skip gw _ h]
  · simp [cancelSessionDoc, cancelRiders_skip gw _ h]

/-- Witness for C10: `sessNoHold` (an AUTHORIZED rider without a hold id and a
CAPTURED rider) is claimed on a gateway where every call would fail; no call
is made, the session becomes CLAIMED, the hold-less rider stays AUTHORIZED. -/
theorem ineligible_riders_skipped_witness :
    claimSessionDoc gwAllFail 6 (some sessNoHold) = Except.ok { sessNoHold with
      status := some SessionStatus.CLAIMED,
      ridersProfile := some (sessNoHold.ridersProfile.getD []),
      claimedAt := some 6 } :=
  (ineligible_riders_skipped gwAllFail 6 sessNoHold (by decide)).1 (by decide)

/-! Claims about create-payment-intent and parameter validation. -/

/-- Counterexample to C7 as stated: for `sessPrice1` with pricePerSeat = 1 the
created hold has amount 100, not 1 — the handler multiplies pricePerSeat by
100, so the hold amount does not equal the stored pricePerSeat. -/
theorem intent_amount_not_pricePerSeat :
    createPaymentIntent storePrice1 intentParams1 = Except.ok intent1 ∧
    sessPrice1.pricePerSeat = 1 ∧ intent1.amount ≠ sessPrice1.pricePerSeat := by
  refine ⟨rfl, rfl, by decide⟩

/-- Claim C7 (amended): every hold created by create-payment-intent has
amount equal to 100 × the session's pricePerSeat (the handler converts the
stored price to minor units by multiplying by 100) in the fixed currency
"aed". -/
theorem intent_amount_price_times_hundred (sid oid rid : String) (s : Session)
    (intent : PaymentIntent)
    (h : createIntentDoc sid oid rid (some s) = Except.ok intent) :
    intent.amount = s.pricePerSeat * 100 ∧ intent.currency = "aed" := by
  simp only [createIntentDoc] at h
  split_ifs at h with h1 h2
  injection h with h
  subst h
  exact ⟨rfl, rfl⟩

/-- Witness for C7: the hold created for `sessPrice1` has amount 1 * 100. -/
theorem intent_amount_price_times_hundred_witness :
    intent1.amount = sessPrice1.pricePerSeat * 100 ∧ intent1.currency = "aed" :=
  intent_amount_price_times_hundred "s1" "op" "r1" sessPrice1 intent1 rfl

/-- Counterexample to C8 as stated: cancel-session performs no
missing-parameter validation — invoked with both parameters missing it
reaches the document store (at the path the undefined parameters interpolate
to) and even cancels the session stored there, instead of being rejected as
a validation error before any store access. -/
theorem cancel_missing_params_reaches_store :
    cancelSession storeUndef gwAllOk 4 { sessionId := none, operatorUid := none } =
      Except.ok { sessOneAuth with
        status := some SessionStatus.CANCELLED,
        ridersProfile := some ((sessOneAuth.ridersProfile.getD []).map cancelMark),
        cancelledAt := some 4 } := rfl

/-- Claim C8 (amended): finalize-booking, claim-session and
create-payment-intent reject a request with a missing (falsy) required
parameter as MISSING_PARAMS, and the result is the same for every store —
the store is never consulted and nothing is written; cancel-session has no
such check. -/
theorem missing_params_rejected_before_store
    (st1 st2 : Store) (gw : Gateway) (now : Nat)
    (rp : ReserveParams) (ip : IntentParams) (sp : SettleParams) :
    ((!truthy rp.sessionId || !truthy rp.operatorUid || !truthy rp.riderUid ||
        !truthy rp.paymentIntentId) = true →
      reserveSeat st1 rp = Except.error ReserveError.MISSING_PARAMS ∧
      reserveSeat st1 rp = reserveSeat st2 rp) ∧
    ((!truthy ip.sessionId || !truthy ip.operatorUid || !truthy ip.riderUid) = true →
      createPaymentIntent st1 ip = Except.error IntentError.MISSING_PARAMS ∧
      createPaymentIntent st1 ip = createPaymentIntent st2 ip) ∧
    ((!truthy sp.sessionId || !truthy sp.operatorUid) = true →
      claimSession st1 gw now sp = Except.error ClaimError.MISSING_PARAMS ∧
      claimSession st1 gw now sp = claimSession st2 gw now sp) := by
  refine ⟨?_, ?_, ?_⟩
  · intro hmiss
    exact ⟨by simp [reserveSeat, hmiss], by simp [reserveSeat, hmiss]⟩
  · intro hmiss
    exact ⟨by simp [createPaymentIntent, hmiss], by simp [createPaymentIntent, hmiss]⟩
  · intro hmiss
    exact ⟨by simp [claimSession, hmiss], by simp [claimSession, hmiss]⟩

/-- Witness for C8: finalize-booking with a missing sessionId is rejected
MISSING_PARAMS on the empty store and equally on a non-empty store. -/
theorem missing_params_rejected_before_store_witness :
    reserveSeat emptyStore rpMissing = Except.error ReserveError.MISSING_PARAMS ∧
    reserveSeat emptyStore rpMissing = reserveSeat storePrice1 rpMissing :=
  (missing_params_rejected_before_store emptyStore storePrice1 gwAllOk 0
    rpMissing ipMissing spMissing).1 (by decide)
